import Mathlib

set_option autoImplicit false

/-!
Verification development for the global-sentiment ETL pipeline.

The definitions below are a shallow embedding of the Python sources:
`src/transformers/sentiment_transformer.py` (sentiment scoring and the
Unifier `transform_all_sources`), `src/transformers/topic_transformer.py`
(the standalone twitter backfill script), and the orchestration in
`main.py` (enrichment stage, topic-modeling stage, deduplication and the
MongoDB write step).  DataFrames are embedded as lists of row structures;
timestamps (`datetime.now()`) are threaded as an explicit `now : Nat`
parameter; the fixed VADER lexicon (`polarity_scores`) is an abstract
pure function `String → Score` carried by the transformer.
-/

namespace GlobalSentiment

/-- A VADER sentiment score dictionary: compound, pos, neu, neg. -/
structure Score where
  compound : Rat
  pos : Rat
  neu : Rat
  neg : Rat
deriving DecidableEq, Repr

/-- The zero/neutral score returned for empty or non-string input
(`{'compound': 0, 'pos': 0, 'neu': 0, 'neg': 0}`). -/
def zeroScore : Score := { compound := 0, pos := 0, neu := 0, neg := 0 }

/-- A Python value handed to `analyze_text`: `None`, a string, or a
non-string such as an integer. -/
inductive PyInput where
  | none
  | ofStr (s : String)
  | ofInt (n : Int)
deriving DecidableEq, Repr

/-- Python truthiness of a `PyInput` (the `not text` test). -/
def PyInput.isTruthy : PyInput → Bool
  | .none => false
  | .ofStr s => decide (s ≠ "")
  | .ofInt n => decide (n ≠ 0)

/-- The `isinstance(text, str)` test. -/
def PyInput.isInstanceStr : PyInput → Bool
  | .ofStr _ => true
  | _ => false

/-- `SentimentTransformer.__init__` stores a `SentimentIntensityAnalyzer`;
its `polarity_scores` is a fixed lexicon-driven pure function, embedded as
an abstract `String → Score`. -/
structure SentimentTransformer where
  analyzer : String → Score

/-- `SentimentTransformer.analyze_text`:
`if not text or not isinstance(text, str): return zero` else
`return self.analyzer.polarity_scores(text)`. -/
def SentimentTransformer.analyze_text (self : SentimentTransformer) (text : PyInput) : Score :=
  if !text.isTruthy || !text.isInstanceStr then zeroScore
  else
    match text with
    | .ofStr s => self.analyzer s
    | _ => zeroScore

/-- `analyze_text` with the instance state passed explicitly: the method
reads `self.analyzer` and assigns no attribute, so the post-call state is
the unchanged instance. -/
def SentimentTransformer.analyze_text_st (self : SentimentTransformer) (text : PyInput) :
    Score × SentimentTransformer :=
  (self.analyze_text text, self)

/-- A cell of a DataFrame text column: a missing value (`NaN`) is not a
string, so it maps to the non-string degenerate input. -/
def cellInput : Option String → PyInput
  | Option.none => PyInput.none
  | Option.some s => PyInput.ofStr s

/-- A raw Reddit post row (fields read by the transformer). -/
structure RedditRaw where
  title : Option String
  text : Option String
  created_utc : Option Nat
  url : Option String
deriving DecidableEq, Repr

/-- A raw tweet row (fields read by the transformer). -/
structure TwitterRaw where
  id : Option Nat
  text : Option String
  created_at : Option Nat
deriving DecidableEq, Repr

/-- A raw news headline row (fields read by the transformer). -/
structure NewsRaw where
  title : Option String
  url : Option String
  extracted_at : Option Nat
deriving DecidableEq, Repr

/-- Output row of `transform_reddit_data`: the raw columns plus the added
sentiment columns and the `processed_at` stamp. -/
structure RedditTransformed where
  raw : RedditRaw
  title_sentiment : Score
  title_sentiment_compound : Rat
  title_sentiment_positive : Rat
  title_sentiment_neutral : Rat
  title_sentiment_negative : Rat
  text_sentiment : Score
  text_sentiment_compound : Rat
  processed_at : Nat
deriving DecidableEq, Repr

/-- Output row of `transform_twitter_data`. -/
structure TwitterTransformed where
  raw : TwitterRaw
  text_sentiment : Score
  sentiment_compound : Rat
  sentiment_positive : Rat
  sentiment_neutral : Rat
  sentiment_negative : Rat
  processed_at : Nat
deriving DecidableEq, Repr

/-- Output row of `transform_news_data`. -/
structure NewsTransformed where
  raw : NewsRaw
  title_sentiment : Score
  sentiment_compound : Rat
  sentiment_positive : Rat
  sentiment_neutral : Rat
  sentiment_negative : Rat
  processed_at : Nat
deriving DecidableEq, Repr

/-- One row of `transform_reddit_data`: the raw row gains
`title_sentiment*` columns from `analyze_text(title)`, a
`text_sentiment`/`text_sentiment_compound` column from
`analyze_text(text)`, and `processed_at = datetime.now()`. -/
def SentimentTransformer.reddit_row (self : SentimentTransformer) (now : Nat)
    (row : RedditRaw) : RedditTransformed :=
  let ts := self.analyze_text (cellInput row.title)
  let xs := self.analyze_text (cellInput row.text)
  { raw := row
    title_sentiment := ts
    title_sentiment_compound := ts.compound
    title_sentiment_positive := ts.pos
    title_sentiment_neutral := ts.neu
    title_sentiment_negative := ts.neg
    text_sentiment := xs
    text_sentiment_compound := xs.compound
    processed_at := now }

/-- `transform_reddit_data`: an empty DataFrame is returned unchanged;
otherwise sentiment columns are applied row-wise. -/
def SentimentTransformer.transform_reddit_data (self : SentimentTransformer) (now : Nat)
    (reddit_df : List RedditRaw) : List RedditTransformed :=
  if reddit_df.isEmpty then [] else reddit_df.map (self.reddit_row now)

/-- One row of `transform_twitter_data`. -/
def SentimentTransformer.twitter_row (self : SentimentTransformer) (now : Nat)
    (row : TwitterRaw) : TwitterTransformed :=
  let ts := self.analyze_text (cellInput row.text)
  { raw := row
    text_sentiment := ts
    sentiment_compound := ts.compound
    sentiment_positive := ts.pos
    sentiment_neutral := ts.neu
    sentiment_negative := ts.neg
    processed_at := now }

/-- `transform_twitter_data`. -/
def SentimentTransformer.transform_twitter_data (self : SentimentTransformer) (now : Nat)
    (twitter_df : List TwitterRaw) : List TwitterTransformed :=
  if twitter_df.isEmpty then [] else twitter_df.map (self.twitter_row now)

/-- One row of `transform_news_data`. -/
def SentimentTransformer.news_row (self : SentimentTransformer) (now : Nat)
    (row : NewsRaw) : NewsTransformed :=
  let ts := self.analyze_text (cellInput row.title)
  { raw := row
    title_sentiment := ts
    sentiment_compound := ts.compound
    sentiment_positive := ts.pos
    sentiment_neutral := ts.neu
    sentiment_negative := ts.neg
    processed_at := now }

/-- `transform_news_data`. -/
def SentimentTransformer.transform_news_data (self : SentimentTransformer) (now : Nat)
    (news_df : List NewsRaw) : List NewsTransformed :=
  if news_df.isEmpty then [] else news_df.map (self.news_row now)

/-- The canonical unified record built by `transform_all_sources`: exactly
the nine keys written by each of the three dict literals. -/
structure UnifiedRecord where
  source : String
  source_id : String
  text : String
  created_at : Nat
  sentiment_compound : Rat
  sentiment_positive : Rat
  sentiment_neutral : Rat
  sentiment_negative : Rat
  processed_at : Nat
deriving DecidableEq, Repr

/-- A Python dict value appearing in a unified record. -/
inductive PyVal where
  | str (s : String)
  | num (q : Rat)
  | time (t : Nat)
deriving DecidableEq, Repr

/-- The dict actually appended to `unified_data`: key/value pairs in the
order they are written in the source.  No topic key is present. -/
def UnifiedRecord.toDict (r : UnifiedRecord) : List (String × PyVal) :=
  [("source", PyVal.str r.source),
   ("source_id", PyVal.str r.source_id),
   ("text", PyVal.str r.text),
   ("created_at", PyVal.time r.created_at),
   ("sentiment_compound", PyVal.num r.sentiment_compound),
   ("sentiment_positive", PyVal.num r.sentiment_positive),
   ("sentiment_neutral", PyVal.num r.sentiment_neutral),
   ("sentiment_negative", PyVal.num r.sentiment_negative),
   ("processed_at", PyVal.time r.processed_at)]

/-- Python `a or b` on strings: the empty string is falsy. -/
def pyOrStr (a b : String) : String := if a = "" then b else a

/-- Python `str(row.get('id', ''))` for an optional numeric id:
`str('') = ''` when the id is absent. -/
def pyStrOfOptNat : Option Nat → String
  | Option.none => ""
  | Option.some n => toString n

/-- The reddit branch of the `unified_data` loop:
`source_id = row.get('url', '') or row.get('title', '')`. -/
def unifyRedditRow (now : Nat) (row : RedditTransformed) : UnifiedRecord :=
  { source := "reddit"
    source_id := pyOrStr (row.raw.url.getD "") (row.raw.title.getD "")
    text := row.raw.title.getD ""
    created_at := row.raw.created_utc.getD now
    sentiment_compound := row.title_sentiment_compound
    sentiment_positive := row.title_sentiment_positive
    sentiment_neutral := row.title_sentiment_neutral
    sentiment_negative := row.title_sentiment_negative
    processed_at := row.processed_at }

/-- The twitter branch of the `unified_data` loop:
`source_id = str(row.get('id', ''))`. -/
def unifyTwitterRow (now : Nat) (row : TwitterTransformed) : UnifiedRecord :=
  { source := "twitter"
    source_id := pyStrOfOptNat row.raw.id
    text := row.raw.text.getD ""
    created_at := row.raw.created_at.getD now
    sentiment_compound := row.sentiment_compound
    sentiment_positive := row.sentiment_positive
    sentiment_neutral := row.sentiment_neutral
    sentiment_negative := row.sentiment_negative
    processed_at := row.processed_at }

/-- The news branch of the `unified_data` loop at counter value `c`:
`source_id = f"news_{news_counter}"` (a run-local ordinal, despite the
source comment `# URL as source ID`). -/
def unifyNewsRow (now : Nat) (c : Nat) (row : NewsTransformed) : UnifiedRecord :=
  { source := "news"
    source_id := "news_" ++ toString c
    text := row.raw.title.getD ""
    created_at := row.raw.extracted_at.getD now
    sentiment_compound := row.sentiment_compound
    sentiment_positive := row.sentiment_positive
    sentiment_neutral := row.sentiment_neutral
    sentiment_negative := row.sentiment_negative
    processed_at := row.processed_at }

/-- The news loop with its mutable `news_counter` (initialised to 1 and
incremented after every appended record). -/
def unifyNewsRows (now : Nat) : Nat → List NewsTransformed → List UnifiedRecord
  | _, [] => []
  | c, row :: rest => unifyNewsRow now c row :: unifyNewsRows now (c + 1) rest

/-- `SentimentTransformer.transform_all_sources`: transform each non-empty
source, then append the unified dicts in source order — all reddit rows,
then all twitter rows, then all news rows. -/
def SentimentTransformer.transform_all_sources (self : SentimentTransformer) (now : Nat)
    (reddit_df : List RedditRaw) (twitter_df : List TwitterRaw) (news_df : List NewsRaw) :
    List UnifiedRecord :=
  let reddit_transformed := if reddit_df.isEmpty then [] else self.transform_reddit_data now reddit_df
  let twitter_transformed := if twitter_df.isEmpty then [] else self.transform_twitter_data now twitter_df
  let news_transformed := if news_df.isEmpty then [] else self.transform_news_data now news_df
  reddit_transformed.map (unifyRedditRow now)
    ++ twitter_transformed.map (unifyTwitterRow now)
    ++ unifyNewsRows now 1 news_transformed

/-- One row of `topic_modeler.transform(all_texts)` output. -/
structure TopicResult where
  text : String
  topic_id : Int
  topic_confidence : Rat
  topic_keywords : List String
deriving DecidableEq, Repr

/-- Call surface of the `TopicModeler` class as used by `main.py` (the
class body lives outside the embedded transformer sources; only its
interface is needed by the orchestration). -/
structure TopicModelerI where
  n_topics : Nat
  transform : List String → List TopicResult
  get_topic_keywords : Nat → List String
  get_topic_name : Nat → String

/-- A unified record after the topic-modeling stage added the three topic
columns (`topic_id`, `topic_confidence`, `topic_keywords`). -/
structure EnrichedRecord where
  base : UnifiedRecord
  topic_id : Int
  topic_confidence : Rat
  topic_keywords : String
deriving DecidableEq, Repr

/-- The `text_to_topic` dict comprehension: a later result with the same
text overwrites an earlier one, so lookup yields the last match. -/
def textToTopic (results : List TopicResult) (t : String) : Option TopicResult :=
  (results.filter (fun r => r.text = t)).getLast?

/-- main.py topic stage, per-record part: columns are first set to the
defaults (-1, 0.0, "Unknown"), then overwritten for rows whose text occurs
in `text_to_topic` (keywords joined by "," after `[:5]`). -/
def assignTopics (results : List TopicResult) (u : List UnifiedRecord) : List EnrichedRecord :=
  u.map fun r =>
    match textToTopic results r.text with
    | Option.some res =>
        { base := r
          topic_id := res.topic_id
          topic_confidence := res.topic_confidence
          topic_keywords := String.intercalate "," (res.topic_keywords.take 5) }
    | Option.none =>
        { base := r
          topic_id := -1
          topic_confidence := 0
          topic_keywords := "Unknown" }

/-- The dedup key used by `drop_duplicates(subset=["source", "source_id"])`. -/
def dedupKey (r : EnrichedRecord) : String × String := (r.base.source, r.base.source_id)

/-- pandas `drop_duplicates(subset=["source", "source_id"])` with the
default `keep="first"`: a row is kept iff its key was not seen earlier. -/
def dropDuplicatesByKey : List (String × String) → List EnrichedRecord → List EnrichedRecord
  | _, [] => []
  | seen, r :: rest =>
    if dedupKey r ∈ seen then dropDuplicatesByKey seen rest
    else r :: dropDuplicatesByKey (dedupKey r :: seen) rest

/-- `store_to_mongodb`: `insert_many` writes every record of the batch and
the function returns `len(result.inserted_ids)`. -/
def store_to_mongodb (records : List EnrichedRecord) : Nat := records.length

/-- main.py lines 288-301: dedup the enriched batch by (source, source_id),
then call `store_to_mongodb` only when the deduped batch is non-empty.
Returns the documents written (`none` = no write call) and the inserted
count (0 when no write call happened). -/
def persistStep (recs : List EnrichedRecord) : Option (List EnrichedRecord) × Nat :=
  let unified_sentiment_data := dropDuplicatesByKey [] recs
  if !unified_sentiment_data.isEmpty then
    (Option.some unified_sentiment_data, store_to_mongodb unified_sentiment_data)
  else (Option.none, 0)

/-- Observable outcome of the topic-modeling stage of `main`. -/
structure TopicStageResult where
  fit_called : Bool
  sentiment_writes : Option (List EnrichedRecord)
  sentiment_count : Nat
  topics_writes : Option Nat
  warned : Bool
deriving DecidableEq, Repr

/-- main.py lines 239-317: the topic-modeling stage.  Fitting and every
write to `sentiment_analysis` and `topics` happen only under
`len(all_texts) > 10`; otherwise the stage only logs a warning.
`unified_sentiment_data` is `none` when the enrichment stage failed
(`"unified_sentiment_data" in locals()` is false). -/
def topicStage (m : TopicModelerI) (unified_sentiment_data : Option (List UnifiedRecord))
    (all_texts : List String) : TopicStageResult :=
  if all_texts.length > 10 then
    let topic_results := m.transform all_texts
    match unified_sentiment_data with
    | Option.some u =>
      if !u.isEmpty then
        let enriched := assignTopics topic_results u
        let step := persistStep enriched
        { fit_called := true
          sentiment_writes := step.1
          sentiment_count := step.2
          topics_writes := Option.some m.n_topics
          warned := false }
      else
        { fit_called := true
          sentiment_writes := Option.none
          sentiment_count := 0
          topics_writes := Option.none
          warned := true }
    | Option.none =>
        { fit_called := true
          sentiment_writes := Option.none
          sentiment_count := 0
          topics_writes := Option.none
          warned := true }
  else
    { fit_called := false
      sentiment_writes := Option.none
      sentiment_count := 0
      topics_writes := Option.none
      warned := true }

/-- main.py lines 208-219: the Unifier stage body inside its try block.
A raised exception is modelled as `Except.error` carrying the message. -/
def enrichStage (st : SentimentTransformer) (now : Nat)
    (reddit_posts : List RedditRaw) (tweets : List TwitterRaw) (headlines : List NewsRaw) :
    Except String (List UnifiedRecord) :=
  if reddit_posts.isEmpty then
    Except.error "Reddit posts, tweets or headlines are empty. Skipping transformation."
  else if headlines.isEmpty then
    Except.error "Headlines are empty. Stopping."
  else
    Except.ok (st.transform_all_sources now reddit_posts tweets headlines)

/-- main.py lines 243-255: `all_texts` collected for topic modeling. -/
def gatherTexts (reddit_posts : List RedditRaw) (tweets : List TwitterRaw)
    (headlines : List NewsRaw) : List String :=
  (if reddit_posts.isEmpty then [] else reddit_posts.map (fun r => r.title.getD ""))
    ++ (if tweets.isEmpty then [] else tweets.map (fun t => t.text.getD ""))
    ++ (if headlines.isEmpty then [] else headlines.map (fun h => h.title.getD ""))

/-- Outcome of running the enrichment stage followed by the topic stage. -/
structure PipelineRun where
  enrich_result : Except String (List UnifiedRecord)
  errors_logged : List String
  topic : TopicStageResult
deriving Repr

/-- main.py lines 159-321: the enrichment try/except (a stage failure is
caught, logged via `logger.error`, and execution falls through to the
topic-modeling stage; the stage is invoked exactly once, with no retry). -/
def runEnrichAndTopic (st : SentimentTransformer) (m : TopicModelerI) (now : Nat)
    (reddit_posts : List RedditRaw) (tweets : List TwitterRaw) (headlines : List NewsRaw) :
    PipelineRun :=
  match enrichStage st now reddit_posts tweets headlines with
  | Except.error e =>
      { enrich_result := Except.error e
        errors_logged := [e]
        topic := topicStage m Option.none (gatherTexts reddit_posts tweets headlines) }
  | Except.ok u =>
      { enrich_result := Except.ok u
        errors_logged := []
        topic := topicStage m (Option.some u) (gatherTexts reddit_posts tweets headlines) }

/-- A record produced by the standalone twitter backfill script
(`topic_transformer.py`), with topic defaults included in the dict. -/
structure BackfillRecord where
  source : String
  source_id : String
  text : String
  created_at : Nat
  sentiment_compound : Rat
  sentiment_positive : Rat
  sentiment_neutral : Rat
  sentiment_negative : Rat
  processed_at : Nat
  topic_id : Int
  topic_confidence : Rat
  topic_keywords : String
deriving DecidableEq, Repr

/-- topic_transformer.py lines 43-59, one loop iteration at counter `c`:
`source_id = f"twitter_{twitter_counter}"`. -/
def backfillTwitterRow (now : Nat) (c : Nat) (row : TwitterTransformed) : BackfillRecord :=
  { source := "twitter"
    source_id := "twitter_" ++ toString c
    text := row.raw.text.getD ""
    created_at := row.raw.created_at.getD now
    sentiment_compound := row.sentiment_compound
    sentiment_positive := row.sentiment_positive
    sentiment_neutral := row.sentiment_neutral
    sentiment_negative := row.sentiment_negative
    processed_at := row.processed_at
    topic_id := -1
    topic_confidence := 0
    topic_keywords := "" }

/-- The backfill loop with `twitter_counter` starting at 1. -/
def backfillTwitterRows (now : Nat) : Nat → List TwitterTransformed → List BackfillRecord
  | _, [] => []
  | c, row :: rest => backfillTwitterRow now c row :: backfillTwitterRows now (c + 1) rest

/-- topic_transformer.py steps 3-4: sentiment transform of the raw tweets,
then the unified-format loop. -/
def backfillUnify (st : SentimentTransformer) (now : Nat) (tweets_df : List TwitterRaw) :
    List BackfillRecord :=
  backfillTwitterRows now 1 (st.transform_twitter_data now tweets_df)

/-- A transformer instance over the trivial lexicon, for concrete runs. -/
def trivialST : SentimentTransformer := { analyzer := fun _ => zeroScore }

/-- A concrete topic modeler assigning no topics, for concrete runs. -/
def trivialModeler : TopicModelerI :=
  { n_topics := 5
    transform := fun _ => []
    get_topic_keywords := fun _ => []
    get_topic_name := fun _ => "" }

/-- A concrete unified record, for concrete runs of the topic stage. -/
def sampleUnified : UnifiedRecord :=
  { source := "reddit"
    source_id := "https://reddit.com/p/1"
    text := "t1"
    created_at := 0
    sentiment_compound := 0
    sentiment_positive := 0
    sentiment_neutral := 1
    sentiment_negative := 0
    processed_at := 0 }

/-- A five-text corpus (below every reading of the threshold). -/
def corpus5 : List String := ["t1", "t2", "t3", "t4", "t5"]

/-- A ten-text corpus (exactly at the documented threshold). -/
def corpus10 : List String :=
  ["t1", "t2", "t3", "t4", "t5", "t6", "t7", "t8", "t9", "t10"]

/-- A concrete news headline row. -/
def newsDocA : NewsRaw :=
  { title := Option.some "Global markets rally"
    url := Option.some "https://example.com/a"
    extracted_at := Option.some 100 }

/-- A second concrete news headline row. -/
def newsDocB : NewsRaw :=
  { title := Option.some "Tech giant earnings dip"
    url := Option.some "https://example.com/b"
    extracted_at := Option.some 101 }

/-- A concrete reddit post row. -/
def redditDocA : RedditRaw :=
  { title := Option.some "Great news about the economy"
    text := Option.some "The economy is improving"
    created_utc := Option.some 50
    url := Option.some "https://reddit.com/p/1" }

/-- A reddit row with every optional field absent. -/
def emptyRedditRow : RedditRaw :=
  { title := Option.none
    text := Option.none
    created_utc := Option.none
    url := Option.none }

/-- A concrete tweet row with a platform id. -/
def tweetA : TwitterRaw :=
  { id := Option.some 789
    text := Option.some "I love this new product!"
    created_at := Option.some 10 }

/-- An enriched record, for concrete runs of the persist step. -/
def enrichedA : EnrichedRecord :=
  { base := sampleUnified
    topic_id := -1
    topic_confidence := 0
    topic_keywords := "Unknown" }

/-- A second enriched record sharing (source, source_id) with `enrichedA`
but differing in payload. -/
def enrichedB : EnrichedRecord :=
  { base := sampleUnified
    topic_id := 3
    topic_confidence := 1/2
    topic_keywords := "economy,markets" }

/-! Helper lemmas about the embedded operations. -/

theorem transform_reddit_data_eq_map (st : SentimentTransformer) (now : Nat)
    (df : List RedditRaw) :
    st.transform_reddit_data now df = df.map (st.reddit_row now) := by
  cases df <;> simp [SentimentTransformer.transform_reddit_data]

theorem transform_twitter_data_eq_map (st : SentimentTransformer) (now : Nat)
    (df : List TwitterRaw) :
    st.transform_twitter_data now df = df.map (st.twitter_row now) := by
  cases df <;> simp [SentimentTransformer.transform_twitter_data]

theorem transform_news_data_eq_map (st : SentimentTransformer) (now : Nat)
    (df : List NewsRaw) :
    st.transform_news_data now df = df.map (st.news_row now) := by
  cases df <;> simp [SentimentTransformer.transform_news_data]

theorem unifyNewsRows_length (now c : Nat) (l : List NewsTransformed) :
    (unifyNewsRows now c l).length = l.length := by
  induction l generalizing c with
  | nil => rfl
  | cons x xs ih => simp [unifyNewsRows, ih]

theorem unifyNewsRows_getElem (now c : Nat) (l : List NewsTransformed) (i : Nat)
    (hi : i < l.length) (ho : i < (unifyNewsRows now c l).length) :
    (unifyNewsRows now c l)[i] = unifyNewsRow now (c + i) (l.get ⟨i, hi⟩) := by
  induction l generalizing c i with
  | nil => cases hi
  | cons x xs ih =>
    cases i with
    | zero => simp [unifyNewsRows]
    | succ j =>
      have hj : j < xs.length := Nat.lt_of_succ_lt_succ hi
      have ho' : j < (unifyNewsRows now (c + 1) xs).length := by
        rw [unifyNewsRows_length]; exact hj
      have harith : c + (j + 1) = (c + 1) + j := by omega
      simp only [unifyNewsRows, List.getElem_cons_succ, List.get_eq_getElem,
        List.getElem_cons_succ, harith]
      rw [ih (c + 1) j hj ho']
      simp

theorem backfillTwitterRows_length (now c : Nat) (l : List TwitterTransformed) :
    (backfillTwitterRows now c l).length = l.length := by
  induction l generalizing c with
  | nil => rfl
  | cons x xs ih => simp [backfillTwitterRows, ih]

theorem backfillTwitterRows_getElem (now c : Nat) (l : List TwitterTransformed) (i : Nat)
    (hi : i < l.length) (ho : i < (backfillTwitterRows now c l).length) :
    (backfillTwitterRows now c l)[i] = backfillTwitterRow now (c + i) (l.get ⟨i, hi⟩) := by
  induction l generalizing c i with
  | nil => cases hi
  | cons x xs ih =>
    cases i with
    | zero => simp [backfillTwitterRows]
    | succ j =>
      have hj : j < xs.length := Nat.lt_of_succ_lt_succ hi
      have ho' : j < (backfillTwitterRows now (c + 1) xs).length := by
        rw [backfillTwitterRows_length]; exact hj
      have harith : c + (j + 1) = (c + 1) + j := by omega
      simp only [backfillTwitterRows, List.getElem_cons_succ, List.get_eq_getElem,
        List.getElem_cons_succ, harith]
      rw [ih (c + 1) j hj ho']
      simp

theorem transform_all_sources_eq (st : SentimentTransformer) (now : Nat)
    (r : List RedditRaw) (t : List TwitterRaw) (n : List NewsRaw) :
    st.transform_all_sources now r t n =
      r.map (fun row => unifyRedditRow now (st.reddit_row now row))
        ++ t.map (fun row => unifyTwitterRow now (st.twitter_row now row))
        ++ unifyNewsRows now 1 (n.map (st.news_row now)) := by
  cases r <;> cases t <;> cases n <;>
    simp [SentimentTransformer.transform_all_sources, transform_reddit_data_eq_map,
      transform_twitter_data_eq_map, transform_news_data_eq_map, unifyNewsRows,
      Function.comp_def]

/-! Claim theorems. -/

/-- C5: the sentiment scorer is total and never fails: `analyze_text` on
`None`, on the empty string, and on the non-string integer `42` returns
the zero/neutral score `{compound: 0, pos: 0, neu: 0, neg: 0}` for every
transformer instance, instead of raising. -/
theorem c5_analyze_text_total_degenerate (st : SentimentTransformer) :
    st.analyze_text PyInput.none = zeroScore
    ∧ st.analyze_text (PyInput.ofStr "") = zeroScore
    ∧ st.analyze_text (PyInput.ofInt 42) = zeroScore :=
  ⟨rfl, rfl, rfl⟩

/-- C9: sentiment scoring is deterministic and stateless: `analyze_text`
leaves the instance state unchanged, a second call on the post-call state
returns the identical score, and a fresh instance built from the same
fixed lexicon returns the identical score. -/
theorem c9_score_deterministic_stateless (a : String → Score) (text : PyInput) :
    ((SentimentTransformer.mk a).analyze_text_st text).2 = SentimentTransformer.mk a
    ∧ (((SentimentTransformer.mk a).analyze_text_st text).2.analyze_text_st text).1
        = ((SentimentTransformer.mk a).analyze_text_st text).1
    ∧ (SentimentTransformer.mk a).analyze_text text
        = (SentimentTransformer.mk a).analyze_text text :=
  ⟨rfl, rfl, rfl⟩

/-- C1: the Unifier assigns news records a run-local positional
`source_id`: the same headline document receives `"news_1"` when it is the
only news row of a run but `"news_2"` when another row precedes it in a
different run, and two different documents in the two runs share the
dedup key `("news", "news_1")` — contradicting the content-derived
identity required by the claim. -/
theorem c1_news_source_id_positional (st : SentimentTransformer) (now : Nat) :
    (st.transform_all_sources now [] [] [newsDocA]).map (fun r => (r.text, r.source_id))
        = [("Global markets rally", "news_1")]
    ∧ (st.transform_all_sources now [] [] [newsDocB, newsDocA]).map
        (fun r => (r.text, r.source_id))
        = [("Tech giant earnings dip", "news_1"), ("Global markets rally", "news_2")] := by
  refine ⟨?_, ?_⟩ <;>
    (simp [transform_all_sources_eq, unifyNewsRows, unifyNewsRow,
       SentimentTransformer.news_row, newsDocA, newsDocB]; decide)

/-- C3: the code gates topic modeling on `len(all_texts) > 10`, not on
`>= 10`: on a combined corpus of exactly ten texts, fitting is not
invoked (the stage is skipped), while the claim requires topic modeling
to run at ten or more texts; with an eleventh text the stage does run. -/
theorem c3_fit_not_called_at_ten :
    corpus10.length = 10
    ∧ (topicStage trivialModeler (Option.some [sampleUnified]) corpus10).fit_called = false
    ∧ (topicStage trivialModeler (Option.some [sampleUnified])
        (corpus10 ++ ["t11"])).fit_called = true := by
  refine ⟨rfl, ?_, ?_⟩ <;> decide

/-- C2 counterexample: a run whose enrichment produced a non-empty batch
of UnifiedRecords but whose combined corpus has five texts skips topic
modeling, and nothing is written to the sentiment_analysis store —
`sentiment_writes` is `none` and the inserted count is 0, refuting the
claim that the records are still persisted. -/
theorem c2_skip_counterexample :
    corpus5.length < 10
    ∧ (topicStage trivialModeler (Option.some [sampleUnified]) corpus5).sentiment_writes
        = Option.none
    ∧ (topicStage trivialModeler (Option.some [sampleUnified]) corpus5).sentiment_count = 0 := by
  refine ⟨by decide, ?_, ?_⟩ <;> decide

/-- C2 (amended): when topic modeling is skipped because the combined
corpus is too small, this is not an error — the stage only logs a
warning — but the run's UnifiedRecords are NOT persisted: no write is
made to the sentiment_analysis store (and none to the topics store) in
that run. -/
theorem c2_skip_is_silent_but_unpersisted (m : TopicModelerI)
    (u : Option (List UnifiedRecord)) (texts : List String)
    (h : texts.length ≤ 10) :
    (topicStage m u texts).fit_called = false
    ∧ (topicStage m u texts).sentiment_writes = Option.none
    ∧ (topicStage m u texts).sentiment_count = 0
    ∧ (topicStage m u texts).topics_writes = Option.none
    ∧ (topicStage m u texts).warned = true := by
  have hx : ¬ (texts.length > 10) := by omega
  simp [topicStage, hx]

/-- C2 witness: the amended theorem applied to the concrete five-text
skip run. -/
theorem c2_skip_is_silent_but_unpersisted_witness :
    (topicStage trivialModeler (Option.some [sampleUnified]) corpus5).sentiment_writes
        = Option.none
    ∧ (topicStage trivialModeler (Option.some [sampleUnified]) corpus5).warned = true := by
  have h := c2_skip_is_silent_but_unpersisted trivialModeler
    (Option.some [sampleUnified]) corpus5 (by decide)
  exact ⟨h.2.1, h.2.2.2.2⟩

/-- C4 counterexample: on a non-empty input batch, the dict produced by
the Unifier for the record has no `topic_id`, `topic_confidence` or
`topic_keywords` key at all — the topic defaults are not part of the
Unifier's output, refuting the claim that every canonical field
(including the topic fields) is populated there. -/
theorem c4_missing_topic_keys_counterexample :
    (trivialST.transform_all_sources 0 [redditDocA] [] []).length = 1
    ∧ (trivialST.transform_all_sources 0 [redditDocA] [] []).map
        (fun r => r.toDict.lookup "topic_id") = [Option.none]
    ∧ (trivialST.transform_all_sources 0 [redditDocA] [] []).map
        (fun r => r.toDict.lookup "topic_confidence") = [Option.none]
    ∧ (trivialST.transform_all_sources 0 [redditDocA] [] []).map
        (fun r => r.toDict.lookup "topic_keywords") = [Option.none] := by
  refine ⟨?_, ?_, ?_, ?_⟩ <;> decide

/-- C4 (amended): every UnifiedRecord produced by the Unifier carries
exactly the nine canonical non-topic keys (source, source_id, text,
created_at, the four sentiment components, processed_at), populated even
when optional source fields are absent (empty-string and `now` defaults);
the topic fields are absent from the Unifier's output and are initialized
to the defaults (-1, 0.0, "Unknown") only by the topic-modeling stage,
for records whose text has no topic assignment. -/
theorem c4_unifier_schema (st : SentimentTransformer) (now : Nat)
    (r : List RedditRaw) (t : List TwitterRaw) (n : List NewsRaw) :
    (∀ rec ∈ st.transform_all_sources now r t n,
        rec.toDict.map Prod.fst =
          ["source", "source_id", "text", "created_at", "sentiment_compound",
           "sentiment_positive", "sentiment_neutral", "sentiment_negative", "processed_at"])
    ∧ (∀ row : RedditRaw, row.url = Option.none → row.title = Option.none →
        row.created_utc = Option.none →
          (unifyRedditRow now (st.reddit_row now row)).source_id = ""
          ∧ (unifyRedditRow now (st.reddit_row now row)).text = ""
          ∧ (unifyRedditRow now (st.reddit_row now row)).created_at = now)
    ∧ (∀ (results : List TopicResult) (u : List UnifiedRecord),
        ∀ rec ∈ assignTopics results u, textToTopic results rec.base.text = Option.none →
          rec.topic_id = -1 ∧ rec.topic_confidence = 0 ∧ rec.topic_keywords = "Unknown") := by
  refine ⟨?_, ?_, ?_⟩
  · intro rec _
    simp [UnifiedRecord.toDict]
  · intro row h1 h2 h3
    simp [unifyRedditRow, SentimentTransformer.reddit_row, pyOrStr, h1, h2, h3]
  · intro results u rec hrec hnone
    obtain ⟨r0, hr0, rfl⟩ := List.mem_map.1 hrec
    rcases h2 : textToTopic results r0.text with _ | res
    · simp [h2]
    · simp [h2] at hnone

/-- C4 witness: the amended theorem applied to the all-optional-absent
reddit row, discharging the hypotheses concretely. -/
theorem c4_unifier_schema_witness :
    (unifyRedditRow 7 (trivialST.reddit_row 7 emptyRedditRow)).source_id = ""
    ∧ (unifyRedditRow 7 (trivialST.reddit_row 7 emptyRedditRow)).text = ""
    ∧ (unifyRedditRow 7 (trivialST.reddit_row 7 emptyRedditRow)).created_at = 7 :=
  (c4_unifier_schema trivialST 7 [] [] []).2.1 emptyRedditRow rfl rfl rfl

/-- C10 counterexample: the same raw tweet (platform id 789, first row of
the batch) receives `source_id = "789"` from the main pipeline's Unifier
but `source_id = "twitter_1"` from the standalone twitter backfill
script, so the two paths do not assign the same (source, source_id) key. -/
theorem c10_twitter_id_counterexample :
    (trivialST.transform_all_sources 0 [] [tweetA] []).map (fun r => r.source_id) = ["789"]
    ∧ (backfillUnify trivialST 0 [tweetA]).map (fun r => r.source_id) = ["twitter_1"]
    ∧ (trivialST.transform_all_sources 0 [] [tweetA] []).map (fun r => r.source_id)
        ≠ (backfillUnify trivialST 0 [tweetA]).map (fun r => r.source_id) := by
  refine ⟨?_, ?_, ?_⟩ <;> decide

/-- C10 (amended): the two code paths assign different identities — for
the i-th raw tweet, the main pipeline's Unifier assigns
`source_id = str(platform id)` (empty string when the id is absent),
while the standalone backfill script assigns the run-local counter string
`"twitter_<i+1>"`; they agree only in the coincidence that the platform
id string equals that counter string. -/
theorem c10_twitter_paths_diverge (st : SentimentTransformer) (now : Nat)
    (tweets : List TwitterRaw) (i : Nat) (hi : i < tweets.length)
    (hp : i < (st.transform_all_sources now [] tweets []).length)
    (hb : i < (backfillUnify st now tweets).length) :
    ((st.transform_all_sources now [] tweets [])[i]).source_id
        = pyStrOfOptNat (tweets.get ⟨i, hi⟩).id
    ∧ ((backfillUnify st now tweets)[i]).source_id = "twitter_" ++ toString (i + 1) := by
  constructor
  · have he : st.transform_all_sources now [] tweets []
        = tweets.map (fun row => unifyTwitterRow now (st.twitter_row now row)) := by
      simp [transform_all_sources_eq, unifyNewsRows]
    have hp' : i < (tweets.map
        (fun row => unifyTwitterRow now (st.twitter_row now row))).length := by
      simpa using hi
    rw [getElem_congr_coll he, List.getElem_map]
    rfl
  · have hmap : i < (tweets.map (st.twitter_row now)).length := by simpa using hi
    have hb' : i < (backfillTwitterRows now 1 (tweets.map (st.twitter_row now))).length := by
      rw [backfillTwitterRows_length]; simpa using hi
    have he2 : backfillUnify st now tweets
        = backfillTwitterRows now 1 (tweets.map (st.twitter_row now)) := by
      simp [backfillUnify, transform_twitter_data_eq_map]
    rw [getElem_congr_coll he2]
    rw [backfillTwitterRows_getElem now 1 (tweets.map (st.twitter_row now)) i hmap hb']
    simp [backfillTwitterRow, Nat.add_comm]

/-- C10 witness: the amended theorem applied to the concrete one-tweet
batch, discharging the index bounds. -/
theorem c10_twitter_paths_diverge_witness :
    ((trivialST.transform_all_sources 0 [] [tweetA] []).get ⟨0, by decide⟩).source_id
        = pyStrOfOptNat ([tweetA].get ⟨0, by decide⟩).id
    ∧ ((backfillUnify trivialST 0 [tweetA]).get ⟨0, by decide⟩).source_id
        = "twitter_" ++ toString (0 + 1) := by
  simpa using c10_twitter_paths_diverge trivialST 0 [tweetA] 0 (by decide) (by decide) (by decide)

/-- C7: if the reddit batch or the news batch is empty (twitter may
legitimately be empty — it is unconstrained here, including `[]`), the
Unifier stage raises, the failure is caught and logged exactly once (no
retry), and only the enrichment stage is aborted: the topic stage still
runs, with no unified data; when reddit and news are both non-empty the
stage succeeds even with an empty twitter batch. -/
theorem c7_unifier_failure_logged_continues (st : SentimentTransformer) (m : TopicModelerI)
    (now : Nat) (reddit_posts : List RedditRaw) (tweets : List TwitterRaw)
    (headlines : List NewsRaw) (h : reddit_posts = [] ∨ headlines = []) :
    (∃ e, (runEnrichAndTopic st m now reddit_posts tweets headlines).enrich_result
            = Except.error e
        ∧ (runEnrichAndTopic st m now reddit_posts tweets headlines).errors_logged = [e])
    ∧ (runEnrichAndTopic st m now reddit_posts tweets headlines).topic
        = topicStage m Option.none (gatherTexts reddit_posts tweets headlines)
    ∧ (∀ (r2 : List RedditRaw) (n2 : List NewsRaw), r2 ≠ [] → n2 ≠ [] →
        (runEnrichAndTopic st m now r2 tweets n2).errors_logged = []
        ∧ (runEnrichAndTopic st m now r2 tweets n2).enrich_result
            = Except.ok (st.transform_all_sources now r2 tweets n2)) := by
  have herr : ∃ e, enrichStage st now reddit_posts tweets headlines = Except.error e := by
    rcases h with rfl | rfl
    · exact ⟨_, rfl⟩
    · cases reddit_posts with
      | nil => exact ⟨_, rfl⟩
      | cons a as => exact ⟨_, rfl⟩
  obtain ⟨e, he⟩ := herr
  refine ⟨⟨e, ?_, ?_⟩, ?_, ?_⟩
  · simp [runEnrichAndTopic, he]
  · simp [runEnrichAndTopic, he]
  · simp [runEnrichAndTopic, he]
  · intro r2 n2 hr hn
    cases r2 with
    | nil => exact absurd rfl hr
    | cons a as =>
      cases n2 with
      | nil => exact absurd rfl hn
      | cons b bs => constructor <;> simp [runEnrichAndTopic, enrichStage]

/-- C7 witness: the claim theorem applied to an empty reddit batch with a
non-empty news batch. -/
theorem c7_unifier_failure_logged_continues_witness :
    ∃ e, (runEnrichAndTopic trivialST trivialModeler 0 [] [] [newsDocA]).enrich_result
        = Except.error e
      ∧ (runEnrichAndTopic trivialST trivialModeler 0 [] [] [newsDocA]).errors_logged = [e] :=
  (c7_unifier_failure_logged_continues trivialST trivialModeler 0 [] [] [newsDocA]
    (Or.inl rfl)).1

theorem getElem_append3_left {α : Type} (A B C : List α) {i : Nat} (hi : i < A.length)
    (ho : i < (A ++ B ++ C).length) : (A ++ B ++ C)[i] = A[i] := by
  have hassoc : A ++ B ++ C = A ++ (B ++ C) := by simp
  rw [getElem_congr_coll hassoc, List.getElem_append_left hi]

theorem getElem_append3_mid {α : Type} (A B C : List α) {i : Nat} (hi : i < B.length)
    (ho : A.length + i < (A ++ B ++ C).length) : (A ++ B ++ C)[A.length + i] = B[i] := by
  have hassoc : A ++ B ++ C = A ++ (B ++ C) := by simp
  have hlen : A.length + i < (A ++ (B ++ C)).length := by
    simpa [List.length_append] using ho
  rw [getElem_congr_coll hassoc,
    List.getElem_append_right (Nat.le_add_right A.length i)]
  have hidx : A.length + i - A.length = i := by omega
  rw [getElem_congr hidx, List.getElem_append_left hi]

theorem getElem_append3_last {α : Type} (A B C : List α) {i : Nat} (hi : i < C.length)
    (ho : A.length + B.length + i < (A ++ B ++ C).length) :
    (A ++ B ++ C)[A.length + B.length + i] = C[i] := by
  have hassoc : A ++ B ++ C = A ++ (B ++ C) := by simp
  rw [getElem_congr_coll hassoc,
    List.getElem_append_right (by omega : A.length ≤ A.length + B.length + i)]
  have hidx : A.length + B.length + i - A.length = B.length + i := by omega
  rw [getElem_congr hidx,
    List.getElem_append_right (Nat.le_add_right B.length i)]
  have hidx2 : B.length + i - B.length = i := by omega
  rw [getElem_congr hidx2]

/-- C8: the Unifier emits exactly one UnifiedRecord per input record,
concatenated in source order — the first `|reddit|` outputs are the
reddit records in input order, the next `|twitter|` the twitter records,
the last `|news|` the news records (whose positional ids expose the input
order) — and unifying three empty batches yields the empty sequence
without failing. -/
theorem c8_unify_order (st : SentimentTransformer) (now : Nat)
    (r : List RedditRaw) (t : List TwitterRaw) (n : List NewsRaw) :
    (st.transform_all_sources now r t n).length = r.length + t.length + n.length
    ∧ (∀ i (hi : i < r.length) (ho : i < (st.transform_all_sources now r t n).length),
        ((st.transform_all_sources now r t n)[i]).source = "reddit"
        ∧ ((st.transform_all_sources now r t n)[i]).text = (r.get ⟨i, hi⟩).title.getD "")
    ∧ (∀ i (hi : i < t.length)
        (ho : r.length + i < (st.transform_all_sources now r t n).length),
        ((st.transform_all_sources now r t n)[r.length + i]).source = "twitter"
        ∧ ((st.transform_all_sources now r t n)[r.length + i]).text
            = (t.get ⟨i, hi⟩).text.getD "")
    ∧ (∀ i (hi : i < n.length)
        (ho : r.length + t.length + i < (st.transform_all_sources now r t n).length),
        ((st.transform_all_sources now r t n)[r.length + t.length + i]).source = "news"
        ∧ ((st.transform_all_sources now r t n)[r.length + t.length + i]).text
            = (n.get ⟨i, hi⟩).title.getD ""
        ∧ ((st.transform_all_sources now r t n)[r.length + t.length + i]).source_id
            = "news_" ++ toString (i + 1))
    ∧ (r = [] → t = [] → n = [] → st.transform_all_sources now r t n = []) := by
  have he := transform_all_sources_eq st now r t n
  refine ⟨?_, ?_, ?_, ?_, ?_⟩
  · rw [he]
    simp [unifyNewsRows_length]
    omega
  · intro i hi ho
    have hiA : i < (r.map (fun row => unifyRedditRow now (st.reddit_row now row))).length := by
      simpa using hi
    have ho' : i < ((r.map (fun row => unifyRedditRow now (st.reddit_row now row)))
        ++ (t.map (fun row => unifyTwitterRow now (st.twitter_row now row)))
        ++ unifyNewsRows now 1 (n.map (st.news_row now))).length := by
      rw [← he]; exact ho
    rw [getElem_congr_coll he, getElem_append3_left _ _ _ hiA, List.getElem_map]
    exact ⟨rfl, rfl⟩
  · intro i hi ho
    have hiB : i < (t.map (fun row => unifyTwitterRow now (st.twitter_row now row))).length := by
      simpa using hi
    have hA : (r.map (fun row => unifyRedditRow now (st.reddit_row now row))).length
        = r.length := by simp
    have harith : r.length + i
        = (r.map (fun row => unifyRedditRow now (st.reddit_row now row))).length + i := by
      rw [hA]
    rw [getElem_congr_coll he, getElem_congr harith, getElem_append3_mid _ _ _ hiB,
      List.getElem_map]
    exact ⟨rfl, rfl⟩
  · intro i hi ho
    have hiC : i < (unifyNewsRows now 1 (n.map (st.news_row now))).length := by
      rw [unifyNewsRows_length]; simpa using hi
    have hiN : i < (n.map (st.news_row now)).length := by simpa using hi
    have hA : (r.map (fun row => unifyRedditRow now (st.reddit_row now row))).length
        = r.length := by simp
    have hB : (t.map (fun row => unifyTwitterRow now (st.twitter_row now row))).length
        = t.length := by simp
    have harith : r.length + t.length + i
        = (r.map (fun row => unifyRedditRow now (st.reddit_row now row))).length
          + (t.map (fun row => unifyTwitterRow now (st.twitter_row now row))).length + i := by
      rw [hA, hB]
    rw [getElem_congr_coll he, getElem_congr harith, getElem_append3_last _ _ _ hiC,
      unifyNewsRows_getElem now 1 (n.map (st.news_row now)) i hiN]
    refine ⟨rfl, ?_, ?_⟩
    · simp [unifyNewsRow, SentimentTransformer.news_row]
    · simp [unifyNewsRow, Nat.add_comm]
  · intro h1 h2 h3
    subst h1; subst h2; subst h3
    rfl

/-- C8 witness: the claim theorem applied to a concrete one-record-per-
source run, discharging the index-bound hypotheses. -/
theorem c8_unify_order_witness :
    (trivialST.transform_all_sources 0 [redditDocA] [tweetA] [newsDocA]).length = 1 + 1 + 1
    ∧ ((trivialST.transform_all_sources 0 [redditDocA] [tweetA] [newsDocA]).get
        ⟨0, by decide⟩).source = "reddit" := by
  have h := c8_unify_order trivialST 0 [redditDocA] [tweetA] [newsDocA]
  refine ⟨h.1, ?_⟩
  simpa using (h.2.1 0 (by decide) (by simp [h.1])).1

/-- Membership in the keyed `drop_duplicates`: a record is kept iff its
key is unseen and it is the first element of the batch carrying its key. -/
theorem mem_dropDuplicatesByKey (l : List EnrichedRecord) (seen : List (String × String))
    (r : EnrichedRecord) :
    r ∈ dropDuplicatesByKey seen l ↔
      dedupKey r ∉ seen
        ∧ l.find? (fun y => decide (dedupKey y = dedupKey r)) = Option.some r := by
  induction l generalizing seen with
  | nil => simp [dropDuplicatesByKey]
  | cons x xs ih =>
    simp only [dropDuplicatesByKey]
    by_cases hx : dedupKey x ∈ seen
    · rw [if_pos hx]
      by_cases hk : dedupKey x = dedupKey r
      · rw [List.find?_cons_of_pos _ (by simp [hk])]
        rw [ih]
        constructor
        · rintro ⟨h1, -⟩
          exact absurd (hk ▸ hx) h1
        · rintro ⟨h1, -⟩
          exact absurd (hk ▸ hx) h1
      · rw [List.find?_cons_of_neg _ (by simp [hk])]
        exact ih seen
    · rw [if_neg hx]
      by_cases hk : dedupKey x = dedupKey r
      · rw [List.find?_cons_of_pos _ (by simp [hk])]
        constructor
        · intro hmem
          rcases List.mem_cons.1 hmem with rfl | hmem2
          · exact ⟨hk ▸ hx, rfl⟩
          · exfalso
            exact ((ih (dedupKey x :: seen)).1 hmem2).1 (by simp [← hk])
        · rintro ⟨h1, heq⟩
          injection heq with hxr
          subst hxr
          exact List.mem_cons_self x _
      · rw [List.find?_cons_of_neg _ (by simp [hk])]
        rw [List.mem_cons, ih]
        constructor
        · rintro (rfl | ⟨h1, h2⟩)
          · exact absurd rfl hk
          · exact ⟨fun hs => h1 (List.mem_cons.2 (Or.inr hs)), h2⟩
        · rintro ⟨h1, h2⟩
          refine Or.inr ⟨?_, h2⟩
          intro hmem
          rcases List.mem_cons.1 hmem with heq | hs
          · exact hk heq.symm
          · exact h1 hs

/-- The keyed `drop_duplicates` never keeps two records with the same
key. -/
theorem dropDuplicatesByKey_pairwise (l : List EnrichedRecord)
    (seen : List (String × String)) :
    (dropDuplicatesByKey seen l).Pairwise (fun a b => dedupKey a ≠ dedupKey b) := by
  induction l generalizing seen with
  | nil => exact List.Pairwise.nil
  | cons x xs ih =>
    by_cases hx : dedupKey x ∈ seen
    · simpa [dropDuplicatesByKey, hx] using ih seen
    · rw [dropDuplicatesByKey, if_neg hx]
      refine List.Pairwise.cons ?_ (ih (dedupKey x :: seen))
      intro b hb
      have := (mem_dropDuplicatesByKey xs (dedupKey x :: seen) b).1 hb
      intro hcontra
      exact this.1 (by simp [← hcontra])

/-- The persisted batch is exactly the keyed dedup of the input. -/
theorem persistStep_written (batch : List EnrichedRecord) :
    (persistStep batch).1.getD [] = dropDuplicatesByKey [] batch := by
  cases hd : dropDuplicatesByKey [] batch with
  | nil => simp [persistStep, hd]
  | cons a as => simp [persistStep, hd]

/-- The returned count equals the number of records written. -/
theorem persistStep_count (batch : List EnrichedRecord) :
    (persistStep batch).2 = ((persistStep batch).1.getD []).length := by
  cases hd : dropDuplicatesByKey [] batch with
  | nil => simp [persistStep, hd]
  | cons a as => simp [persistStep, hd, store_to_mongodb]

/-- C6: the persist step deduplicates the incoming batch by
(source, source_id) keeping the first occurrence — a record is written
iff it is the first of the batch with its key, so no two written records
share a key, and for two same-key records only the first-encountered is
written (count 1); the count returned equals the number of records
written; on an empty batch no write call is performed and the count is
0. -/
theorem c6_persist_dedup_first (batch : List EnrichedRecord) :
    (∀ r, r ∈ (persistStep batch).1.getD [] ↔
        batch.find? (fun y => decide (dedupKey y = dedupKey r)) = Option.some r)
    ∧ ((persistStep batch).1.getD []).Pairwise (fun a b => dedupKey a ≠ dedupKey b)
    ∧ (persistStep batch).2 = ((persistStep batch).1.getD []).length
    ∧ (∀ r1 r2 : EnrichedRecord, dedupKey r1 = dedupKey r2 → r1 ≠ r2 →
        persistStep [r1, r2] = (Option.some [r1], 1))
    ∧ (batch = [] → persistStep batch = (Option.none, 0)) := by
  refine ⟨?_, ?_, persistStep_count batch, ?_, ?_⟩
  · intro r
    rw [persistStep_written]
    simpa using mem_dropDuplicatesByKey batch [] r
  · rw [persistStep_written]
    exact dropDuplicatesByKey_pairwise batch []
  · intro r1 r2 hkey hne
    simp [persistStep, dropDuplicatesByKey, store_to_mongodb, ← hkey]
  · rintro rfl
    rfl

/-- C6 witness: the claim theorem applied to the concrete duplicate-key
batch and to the empty batch. -/
theorem c6_persist_dedup_first_witness :
    persistStep [enrichedA, enrichedB] = (Option.some [enrichedA], 1)
    ∧ persistStep [] = (Option.none, 0) :=
  ⟨(c6_persist_dedup_first []).2.2.2.1 enrichedA enrichedB rfl (by decide),
   (c6_persist_dedup_first []).2.2.2.2 rfl⟩

end GlobalSentiment
